import Mathlib

/-
Verification of the PubMed evidence-gap backend (ravisuresh229/evidencegap).

The repository contains two parallel pipelines:
  * `src/main.py`       — FastAPI endpoints `analyze_evidence_gap` and `scrape_pubmed`
                          (HTML scraping of pubmed.ncbi.nlm.nih.gov + GPT analysis);
  * `src/api/index.py`  — FastAPI endpoints `scrape_papers` / `analyze_papers`
                          (eutils esearch/efetch XML pipeline), duplicated by the
                          serverless handlers in `src/api/scrape.py` / `src/api/analyze.py`.

This file is a shallow embedding of both pipelines.  External collaborators
(the HTTP layer, BeautifulSoup's parsing, `json.loads` + pydantic validation,
and the OpenAI client) are modelled as oracle parameters; everything the
repository's own code does (span extraction from the model reply, record
extraction, id derivation, cap truncation, error wrapping) is translated
directly from the source.
-/

set_option maxRecDepth 10000

/-- HTTP-level error as raised via `fastapi.HTTPException(status_code, detail)`.
When such an exception is raised inside a `try` block whose handler re-raises
`HTTPException(500, f"... {e}")`, Python's `str(e)` of a starlette
`HTTPException` is `f"{status_code}: {detail}"`; we reproduce that wrapping
textually where the source does it. -/
structure HTTPError where
  status : Nat
  detail : String
deriving DecidableEq, Repr

/-! ### Response parser (src/main.py lines 88-96)

The source runs `re.search(r'\{.*\}', content, re.DOTALL)` on the raw model
reply and, when a match exists, feeds `match.group(0)` to
`json.loads` / `AnalyzeResponse(**data)`.  We model the regex search
operationally: `matchBraceAt` is the (greedy) match of the pattern anchored at
the head of the text, `reSearchBrace` scans for the leftmost position with a
match, exactly as the `re` engine does. -/

/-- Index of the first occurrence of `c` in `s`, if any. -/
def firstIdxOf (c : Char) : List Char → Option Nat
  | [] => none
  | x :: xs => if x = c then some 0 else (firstIdxOf c xs).map (· + 1)

/-- Index of the last occurrence of `c` in `s`, if any. -/
def lastIdxOf (c : Char) : List Char → Option Nat
  | [] => none
  | x :: xs =>
    match lastIdxOf c xs with
    | some i => some (i + 1)
    | none => if x = c then some 0 else none

/-- Greedy match of the pattern at the start of `s`: the text must begin with
an opening brace and the match extends to the last closing brace anywhere
after it (greedy `.*` under `re.DOTALL`). -/
def matchBraceAt : List Char → Option (List Char)
  | [] => none
  | c :: rest =>
    if c = '{' then (lastIdxOf '}' rest).map (fun j => c :: rest.take (j + 1)) else none

/-- Model of `re.search(r'\{.*\}', s, re.DOTALL)`: try each start position
from the left and return the first (leftmost) greedy match. -/
def reSearchBrace : List Char → Option (List Char)
  | [] => none
  | c :: rest =>
    match matchBraceAt (c :: rest) with
    | some m => some m
    | none => reSearchBrace rest

/-- Stated from the spec's words, for comparison with `reSearchBrace`:
"locate the first `\x7b` and the last `\x7d` in the raw reply text and treat
the enclosed span as a candidate structured-object literal"; no span exists
when there is no opening brace, no closing brace, or the last closing brace
does not lie after the first opening brace. -/
def specBraceSpan (s : List Char) : Option (List Char) :=
  match firstIdxOf '{' s, lastIdxOf '}' s with
  | some i, some j => if i < j then some ((s.drop i).take (j - i + 1)) else none
  | _, _ => none

/-- The `AnalyzeResponse` pydantic model of src/main.py. The `float` field is
modelled as a rational; none of the verified properties depend on
floating-point semantics. -/
structure AnalyzeResponse where
  summary : String
  evidence_gaps : List String
  research_suggestions : List String
  confidence_score : Rat
  priorities : List String
deriving DecidableEq, Repr

/-- The `PubMedResult` pydantic model of src/main.py (analyze-request input
records): `title` is a required string, all other fields optional. -/
structure PubMedResult where
  title : String
  abstract : Option String
  authors : Option String
  publication_date : Option String
  pmid : Option String
  url : Option String
deriving DecidableEq, Repr

/-- The `AnalyzeRequest` pydantic model of src/main.py. -/
structure AnalyzeRequest where
  question : String
  results : List PubMedResult
deriving DecidableEq, Repr

/-- Outcome of the external OpenAI chat-completion call
(`openai_client.chat.completions.create`): either the call raised an
exception whose `str` is `msg`, or it returned a reply with the given
message content. -/
inductive ModelReply where
  | failure (msg : String)
  | reply (content : List Char)

/-- Python truthiness of the `openai_api_key` value as used in
`if not openai_api_key:` — `None` and the empty string are falsy. -/
def apiKeyTruthy : Option String → Bool
  | none => false
  | some s => !s.isEmpty

/-- Python `x or 'N/A'` on an optional string: `None` and `""` are falsy. -/
def orNA : Option String → String
  | none => "N/A"
  | some s => if s = "" then "N/A" else s

/-- One record block of the abstracts context,
`f"Title: {r.title}\nAbstract: {r.abstract or 'N/A'}\nAuthors: {r.authors or 'N/A'}\nDate: {r.publication_date or 'N/A'}"`. -/
def recordBlock (r : PubMedResult) : String :=
  "Title: " ++ r.title ++ "\nAbstract: " ++ orNA r.abstract ++ "\nAuthors: " ++
    orNA r.authors ++ "\nDate: " ++ orNA r.publication_date

/-- The `"\n\n".join([...])` abstracts context of src/main.py. -/
def composeAbstracts (results : List PubMedResult) : String :=
  String.intercalate "\n\n" (results.map recordBlock)

/-- The triple-quoted instruction preamble of the prompt in src/main.py. -/
def promptTemplate : String :=
  "\nYou are an expert medical evidence analyst. Given the following clinical question and recent PubMed abstracts, perform a comprehensive evidence gap analysis. Your response should:\n- Summarize the current state of evidence\n- Identify what evidence exists vs. what is missing\n- Highlight missing patient populations (age, demographics, comorbidities)\n- Note missing study types (RCTs, real-world evidence, long-term outcomes)\n- Point out gaps in comparisons or endpoints\n- Suggest specific, actionable research opportunities, ranked by priority\n- Assign a confidence score (0-1) for the completeness of current evidence\n\nClinical Question:\n"

/-- The response-shape instruction appended to the prompt in src/main.py
(braces of the JSON sketch written as \x7b / \x7d). -/
def jsonFormatFooter : String :=
  "\n\nRespond in this JSON format:\n\x7b\n  \"summary\": string,\n  \"evidence_gaps\": [string],\n  \"research_suggestions\": [string],\n  \"confidence_score\": float,\n  \"priorities\": [string]\n\x7d"

/-- The full user prompt composed by `analyze_evidence_gap`. -/
def composePrompt (question : String) (results : List PubMedResult) : String :=
  promptTemplate ++ question ++ "\n\nRecent PubMed Abstracts:\n" ++
    composeAbstracts results ++ jsonFormatFooter

/-- The span-extraction / JSON-decoding tail of `analyze_evidence_gap`
(src/main.py lines 88-99).  `jsonParse` models `json.loads` followed by
`AnalyzeResponse(**data)` (Python stdlib + pydantic): on failure it yields the
exception text `m`, which the `except Exception` handler wraps as
`HTTPException(500, f"OpenAI analysis failed: {m}")`.  When no regex match
exists the source raises `HTTPException(500, "OpenAI response did not contain
valid JSON.")` inside the same `try`, so the handler re-wraps it through
`str(e) = "500: OpenAI response did not contain valid JSON."`. -/
def parseAnalysisStage (jsonParse : List Char → Except String AnalyzeResponse)
    (content : List Char) : Except HTTPError AnalyzeResponse :=
  match reSearchBrace content with
  | some span =>
    match jsonParse span with
    | .ok r => .ok r
    | .error m => .error ⟨500, "OpenAI analysis failed: " ++ m⟩
  | none =>
    .error ⟨500, "OpenAI analysis failed: 500: OpenAI response did not contain valid JSON."⟩

/-- The `/api/analyze` endpoint of src/main.py.  `model` is the external
OpenAI collaborator, applied to the composed prompt; `jsonParse` models
`json.loads` + pydantic validation of the extracted span.  The second
component of the result records whether the external model call was
attempted. -/
def analyze_evidence_gap (apiKey : Option String) (model : String → ModelReply)
    (jsonParse : List Char → Except String AnalyzeResponse) (req : AnalyzeRequest) :
    Except HTTPError AnalyzeResponse × Bool :=
  if apiKeyTruthy apiKey then
    match model (composePrompt req.question req.results) with
    | .failure m => (.error ⟨500, "OpenAI analysis failed: " ++ m⟩, true)
    | .reply content => (parseAnalysisStage jsonParse content, true)
  else
    (.error ⟨500, "OpenAI API key not set."⟩, false)

/-! ### PubMed HTML scraper (src/main.py lines 102-139)

BeautifulSoup parsing is the external collaborator: a `DocsumEntry` is one
node matched by `soup.select(".search-results .docsum-content")`, carrying
the results of the fixed sub-selectors used by the source (`select_one`
returning a truthy tag is modelled as `some`; `None` — and bs4's falsy empty
tag, which the source treats identically — as `none`).  Text fields carry the
already-stripped `get_text(strip=True)` value. -/

/-- An `a.docsum-title` anchor: its stripped text and its `href` attribute. -/
structure Anchor where
  text : String
  href : String
deriving DecidableEq, Repr

/-- One search-result entry node (`.search-results .docsum-content`). -/
structure DocsumEntry where
  titleAnchor : Option Anchor
  authorsText : Option String
  citationText : Option String
deriving DecidableEq, Repr

/-- A fetched detail page: the stripped text of
`select_one(".abstract-content.selected")`, absent when no element matches. -/
structure AbstractPage where
  abstractText : Option String
deriving DecidableEq, Repr

/-- The record dict appended by `scrape_pubmed` (src/main.py lines 130-137):
all six keys are always present, each value optional. -/
structure ScrapedRecord where
  title : Option String
  abstract : Option String
  authors : Option String
  publication_date : Option String
  pmid : Option String
  url : Option String
deriving DecidableEq, Repr

/-- The base URL joined with the anchor's `href`. -/
def pubmedBase : String := "https://pubmed.ncbi.nlm.nih.gov"

/-- Python `s.split("/")` accumulator: splits on every slash, keeping empty
segments, and always yields at least one segment. -/
def splitSlashAux (cur : List Char) : List Char → List (List Char)
  | [] => [cur.reverse]
  | c :: cs => if c = '/' then cur.reverse :: splitSlashAux [] cs else splitSlashAux (c :: cur) cs

/-- Python `s.split("/")` as a list of strings. -/
def pySplitSlash (s : String) : List String :=
  (splitSlashAux [] s.toList).map List.asString

/-- Python `url.split("/")[-2]`: the second-to-last slash-delimited segment.
With fewer than two segments Python would raise `IndexError`; that case is
unreachable for the URLs this pipeline constructs (they start with
`https://`) and is modelled as `none`. -/
def pmidFromUrl (u : String) : Option String :=
  let parts := pySplitSlash u
  if parts.length < 2 then none else parts.get? (parts.length - 2)

/-- Python `s.split(".")[0]`: the text before the first period (the whole
string when there is no period). -/
def pyHeadSplitDot (s : String) : String :=
  (s.toList.takeWhile (fun c => !(c = '.'))).asString

/-- Per-entry extraction body of the `for article in articles[:8]` loop
(src/main.py lines 108-137).  `fetch` is the external per-record abstract
fetch: `none` models a raised `requests` exception or a non-2xx
`raise_for_status` (swallowed by the bare `except`), `some page` a parsed
detail page. -/
def extractRecord (fetch : String → Option AbstractPage) (e : DocsumEntry) : ScrapedRecord :=
  let title := e.titleAnchor.map (fun t => t.text)
  let url := e.titleAnchor.map (fun t => pubmedBase ++ t.href)
  let pmid := url.bind pmidFromUrl
  let authors := e.authorsText
  let publication_date := e.citationText.map pyHeadSplitDot
  let abstract :=
    match url with
    | some u =>
      match fetch u with
      | some page => page.abstractText
      | none => none
    | none => none
  { title := title, abstract := abstract, authors := authors,
    publication_date := publication_date, pmid := pmid, url := url }

/-- The extraction step `articles[:cap]` + per-entry extraction, in document
order (src/main.py line 108; the source instantiates `cap := 8`). -/
def extractRecords (fetch : String → Option AbstractPage) (entries : List DocsumEntry)
    (cap : Nat) : List ScrapedRecord :=
  (entries.take cap).map (extractRecord fetch)

/-- Outcome of the upstream search request + soup parse: either the request
raised / returned non-2xx, or a parsed page with its matched entry nodes. -/
inductive SearchFetch where
  | failure (msg : String)
  | page (entries : List DocsumEntry)

/-- The `/api/scrape` endpoint of src/main.py.  An upstream failure
propagates (an uncaught exception surfaces as a 500); on success the entries
are extracted, and an empty result list is rejected with
`HTTPException(404, "No results found.")` (lines 138-139). -/
def scrape_pubmed (search : String → SearchFetch) (fetch : String → Option AbstractPage)
    (question : String) : Except HTTPError (List ScrapedRecord) :=
  match search question with
  | .failure m => .error ⟨500, m⟩
  | .page entries =>
    let results := extractRecords fetch entries 8
    if results.isEmpty then .error ⟨404, "No results found."⟩ else .ok results

/-- The literal dict appended by `scrape_pubmed` for one record, as an
association list in source key order. -/
def recordDict (r : ScrapedRecord) : List (String × Option String) :=
  [("title", r.title), ("abstract", r.abstract), ("authors", r.authors),
   ("publication_date", r.publication_date), ("pmid", r.pmid), ("url", r.url)]

/-- Forget the abstract field (used to state that the abstract fetcher can
influence nothing else). -/
def eraseAbstract (r : ScrapedRecord) : ScrapedRecord :=
  { r with abstract := none }

/-- Whether an `Except` outcome is a success. -/
def okB {α : Type} : Except HTTPError α → Bool
  | .ok _ => true
  | .error _ => false

/-! ### eutils pipeline (src/api/index.py, duplicated in src/api/scrape.py)

The efetch XML parse is the external collaborator; a `BsTag` is a found
element together with its bs4 truthiness (a tag with no contents is falsy in
`if title_elem:` / `if last_name and first_name:` tests) and its
`get_text()` value. -/

/-- A BeautifulSoup tag as tested and read by the eutils pipeline. -/
structure BsTag where
  truthy : Bool
  text : String
deriving DecidableEq, Repr

/-- One `Author` element: its `LastName` / `ForeName` children, when found. -/
structure EAuthor where
  lastName : Option BsTag
  foreName : Option BsTag
deriving DecidableEq, Repr

/-- An `AuthorList` element: its truthiness and its `Author` children. -/
structure EAuthorList where
  truthy : Bool
  authors : List EAuthor
deriving DecidableEq, Repr

/-- One `PubmedArticle` element of the efetch reply. -/
structure EArticle where
  articleTitle : Option BsTag
  abstractText : Option BsTag
  authorList : Option EAuthorList
deriving DecidableEq, Repr

/-- The paper dict of the eutils pipeline. -/
structure EPaper where
  title : String
  abstract : String
  authors : List String
deriving DecidableEq, Repr

/-- The author-loop body (src/api/index.py lines 86-90): an entry is appended
only when both `LastName` and `ForeName` were found and are truthy, and then
has the shape `f"{first_name.get_text()} {last_name.get_text()}"`. -/
def authorEntry (a : EAuthor) : Option String :=
  match a.lastName, a.foreName with
  | some ln, some fn => if ln.truthy && fn.truthy then some (fn.text ++ " " ++ ln.text) else none
  | _, _ => none

/-- Per-article extraction of the eutils pipeline (src/api/index.py lines
77-96): missing or falsy title/abstract elements resolve to the explicit
placeholder strings, and authors are collected through `authorEntry`. -/
def extractEPaper (a : EArticle) : EPaper :=
  { title :=
      match a.articleTitle with
      | some t => if t.truthy then t.text else "No title available"
      | none => "No title available"
    abstract :=
      match a.abstractText with
      | some t => if t.truthy then t.text else "No abstract available"
      | none => "No abstract available"
    authors :=
      match a.authorList with
      | some al => if al.truthy then al.authors.filterMap authorEntry else []
      | none => [] }

/-- The paper dict appended by the eutils pipeline, as an association list in
source key order (`authors` is a JSON array, the other two strings). -/
inductive JVal where
  | str (s : String)
  | arr (l : List String)
deriving DecidableEq, Repr

/-- The dict literal of src/api/index.py lines 92-96. -/
def ePaperDict (p : EPaper) : List (String × JVal) :=
  [("title", .str p.title), ("abstract", .str p.abstract), ("authors", .arr p.authors)]

/-- Outcome of the esearch request: either the reply JSON lacks
`"esearchresult"` (the source then raises `HTTPException(500, "Failed to
search PubMed")`, which its own broad handler re-wraps through `str(e)`), or
the id list. -/
inductive ESearch where
  | malformed
  | result (idlist : List String)

/-- The `/api/scrape` endpoint of src/api/index.py: an empty id list returns
an empty paper list as a 200 success; otherwise the efetch reply's articles
are extracted. -/
def scrape_papers (esearch : String → Nat → ESearch)
    (efetch : List String → List EArticle) (query : String) (maxResults : Nat) :
    Except HTTPError (List EPaper) :=
  match esearch query maxResults with
  | .malformed => .error ⟨500, "500: Failed to search PubMed"⟩
  | .result [] => .ok []
  | .result ids => .ok ((efetch ids).map extractEPaper)

/-- A paper of the index-analyze request body (a free dict read with
`paper.get('title', 'N/A')` etc.). -/
structure AnalyzePaper where
  title : Option String
  abstract : Option String
  authors : Option (List String)
deriving DecidableEq, Repr

/-- The `papers_text` composition of src/api/index.py lines 111-116. -/
def papersText (papers : List AnalyzePaper) : String :=
  String.join (papers.enum.map (fun p =>
    "Paper " ++ toString (p.1 + 1) ++ ":\n" ++
    "Title: " ++ (p.2.title.getD "N/A") ++ "\n" ++
    "Abstract: " ++ (p.2.abstract.getD "N/A") ++ "\n" ++
    "Authors: " ++ String.intercalate ", " (p.2.authors.getD []) ++ "\n\n"))

/-- The analysis prompt of src/api/index.py (triple-quoted, 8-space
indentation preserved). -/
def indexPrompt (pt : String) : String :=
  "\n        Analyze the following research papers and identify evidence gaps in the field:\n\n        " ++
  pt ++
  "\n\n        Please provide:\n        1. A summary of the current research landscape\n        2. Key evidence gaps that need to be addressed\n        3. Recommendations for future research directions\n        4. Potential research questions that could fill these gaps\n\n        Format your response in a clear, structured manner.\n        "

/-- Result body of a successful index analyze call. -/
structure IndexAnalysisOut where
  analysis : String
  papers_analyzed : Nat
deriving DecidableEq, Repr

/-- The `/api/analyze` endpoint of src/api/index.py.  An empty paper list
raises `HTTPException(400, "No papers provided")` inside the `try`, which the
broad `except Exception` handler re-wraps as
`HTTPException(500, str(e)) = HTTPException(500, "400: No papers provided")`
— before any external model call.  The second component records whether the
external call was attempted. -/
def analyze_papers (model : String → ModelReply) (papers : List AnalyzePaper) :
    Except HTTPError IndexAnalysisOut × Bool :=
  if papers.isEmpty then
    (.error ⟨500, "400: No papers provided"⟩, false)
  else
    match model (indexPrompt (papersText papers)) with
    | .failure m => (.error ⟨500, m⟩, true)
    | .reply content => (.ok ⟨content.asString, papers.length⟩, true)

/-! ### Sample data used by witnesses -/

/-- A concrete search-result entry with a detail link. -/
def sampleEntry : DocsumEntry :=
  { titleAnchor := some { text := "Sample Title", href := "/12345/" }
  , authorsText := some "Doe J, Roe R"
  , citationText := some "J Med. 2024 Jan" }

/-- A concrete efetch article with one complete author. -/
def sampleEArticle : EArticle :=
  { articleTitle := some { truthy := true, text := "T" }
  , abstractText := none
  , authorList := some
      { truthy := true
      , authors := [⟨some ⟨true, "Doe"⟩, some ⟨true, "John"⟩⟩] } }

/-! ### Helper lemmas -/

theorem firstIdxOf_cons_self (c : Char) (xs : List Char) : firstIdxOf c (c :: xs) = some 0 := by
  simp [firstIdxOf]

theorem firstIdxOf_cons_ne {x c : Char} (h : x ≠ c) (xs : List Char) :
    firstIdxOf c (x :: xs) = (firstIdxOf c xs).map (· + 1) := by
  simp [firstIdxOf, h]

theorem lastIdxOf_cons_some {c : Char} {xs : List Char} {j : Nat}
    (h : lastIdxOf c xs = some j) (x : Char) : lastIdxOf c (x :: xs) = some (j + 1) := by
  simp [lastIdxOf, h]

theorem lastIdxOf_cons_none_self {c : Char} {xs : List Char}
    (h : lastIdxOf c xs = none) : lastIdxOf c (c :: xs) = some 0 := by
  simp [lastIdxOf, h]

theorem lastIdxOf_cons_none_ne {x c : Char} {xs : List Char}
    (hn : lastIdxOf c xs = none) (h : x ≠ c) : lastIdxOf c (x :: xs) = none := by
  simp [lastIdxOf, hn, h]

theorem specBraceSpan_of_last_none {s : List Char} (h : lastIdxOf '}' s = none) :
    specBraceSpan s = none := by
  unfold specBraceSpan
  rw [h]
  rcases firstIdxOf '{' s with _ | i <;> rfl

theorem specBraceSpan_of_first_none {s : List Char} (h : firstIdxOf '{' s = none) :
    specBraceSpan s = none := by
  unfold specBraceSpan
  rw [h]

theorem splitSlashAux_slash (cur cs : List Char) :
    splitSlashAux cur ('/' :: cs) = cur.reverse :: splitSlashAux [] cs := by
  simp [splitSlashAux]

theorem splitSlashAux_nonslash {c : Char} (h : c ≠ '/') (cur cs : List Char) :
    splitSlashAux cur (c :: cs) = splitSlashAux (c :: cur) cs := by
  simp [splitSlashAux, h]

theorem splitSlashAux_peel (pre : List Char) (hpre : ∀ c ∈ pre, c ≠ '/') :
    ∀ cur cs, splitSlashAux cur (pre ++ cs) = splitSlashAux (pre.reverse ++ cur) cs := by
  induction pre with
  | nil => intro cur cs; simp
  | cons p pre ih =>
    intro cur cs
    have hp : p ≠ '/' := hpre p (by simp)
    rw [List.cons_append, splitSlashAux_nonslash hp,
      ih (fun c hc => hpre c (by simp [hc])) (p :: cur) cs]
    simp

theorem two_le_splitSlashAux_base (href : List Char) :
    2 ≤ (splitSlashAux [] (pubmedBase.toList ++ href)).length := by
  have hb : pubmedBase.toList
      = "https:".toList ++ ('/' :: '/' :: "pubmed.ncbi.nlm.nih.gov".toList) := by decide
  rw [hb, List.append_assoc, List.cons_append, List.cons_append,
    splitSlashAux_peel "https:".toList (by decide), splitSlashAux_slash, splitSlashAux_slash]
  simp

theorem two_le_pySplitSlash (href : String) :
    2 ≤ (pySplitSlash (pubmedBase ++ href)).length := by
  unfold pySplitSlash
  rw [List.length_map]
  have htl : (pubmedBase ++ href).toList = pubmedBase.toList ++ href.toList :=
    String.data_append pubmedBase href
  rw [htl]
  exact two_le_splitSlashAux_base href.toList

theorem pmidFromUrl_of_base (href : String) :
    pmidFromUrl (pubmedBase ++ href)
      = (pySplitSlash (pubmedBase ++ href)).get?
          ((pySplitSlash (pubmedBase ++ href)).length - 2) := by
  have h2 := two_le_pySplitSlash href
  unfold pmidFromUrl
  rw [if_neg (by omega)]

theorem wrapped_ne_config (m : String) :
    "OpenAI analysis failed: " ++ m ≠ "OpenAI API key not set." := by
  intro h
  have h7 : ("OpenAI analysis failed: " ++ m).data.get? 7
      = "OpenAI API key not set.".data.get? 7 := by rw [h]
  have hl : ("OpenAI analysis failed: " ++ m).data.get? 7 = some 'a' := rfl
  have hr : "OpenAI API key not set.".data.get? 7 = some 'A' := rfl
  rw [hl, hr] at h7
  exact absurd h7 (by decide)

/-- The regex search of src/main.py (leftmost match of the greedy pattern)
computes exactly the spec's first-open-brace-to-last-close-brace span. -/
theorem reSearchBrace_eq_spec (s : List Char) : reSearchBrace s = specBraceSpan s := by
  induction s with
  | nil => rfl
  | cons c rest ih =>
    by_cases hc : c = '{'
    · subst hc
      rcases hj : lastIdxOf '}' rest with _ | j
      · have hm : matchBraceAt ('{' :: rest) = none := by simp [matchBraceAt, hj]
        have hfull : lastIdxOf '}' ('{' :: rest) = none :=
          lastIdxOf_cons_none_ne hj (by decide)
        have h1 : reSearchBrace ('{' :: rest) = reSearchBrace rest := by
          simp only [reSearchBrace, hm]
        rw [h1, ih, specBraceSpan_of_last_none hj, specBraceSpan_of_last_none hfull]
      · have hm : matchBraceAt ('{' :: rest) = some ('{' :: rest.take (j + 1)) := by
          simp [matchBraceAt, hj]
        have h1 : reSearchBrace ('{' :: rest) = some ('{' :: rest.take (j + 1)) := by
          simp only [reSearchBrace, hm]
        have hfull : lastIdxOf '}' ('{' :: rest) = some (j + 1) :=
          lastIdxOf_cons_some hj _
        rw [h1]
        unfold specBraceSpan
        rw [firstIdxOf_cons_self, hfull]
        simp
    · have hm : matchBraceAt (c :: rest) = none := by simp [matchBraceAt, hc]
      have h1 : reSearchBrace (c :: rest) = reSearchBrace rest := by
        simp only [reSearchBrace, hm]
      have hstep : specBraceSpan (c :: rest) = specBraceSpan rest := by
        rcases hf : firstIdxOf '{' rest with _ | i
        · have hfull : firstIdxOf '{' (c :: rest) = none := by
            rw [firstIdxOf_cons_ne hc, hf]; rfl
          rw [specBraceSpan_of_first_none hf, specBraceSpan_of_first_none hfull]
        · have hfull : firstIdxOf '{' (c :: rest) = some (i + 1) := by
            rw [firstIdxOf_cons_ne hc, hf]; rfl
          rcases hj : lastIdxOf '}' rest with _ | j
          · by_cases hcc : c = '}'
            · subst hcc
              have hlf : lastIdxOf '}' ('}' :: rest) = some 0 := lastIdxOf_cons_none_self hj
              rw [specBraceSpan_of_last_none hj]
              unfold specBraceSpan
              rw [hfull, hlf]
              simp
            · have hlf : lastIdxOf '}' (c :: rest) = none := lastIdxOf_cons_none_ne hj hcc
              rw [specBraceSpan_of_last_none hj, specBraceSpan_of_last_none hlf]
          · have hlf : lastIdxOf '}' (c :: rest) = some (j + 1) := lastIdxOf_cons_some hj _
            unfold specBraceSpan
            rw [hfull, hlf, hf, hj]
            by_cases hij : i < j
            · simp [hij, Nat.succ_sub_succ]
            · simp [hij]
      rw [h1, ih, hstep]

/-- Every request-level failure of `analyze_evidence_gap` with the API key
set — an upstream model failure, a reply without a brace span, or a span
that fails JSON/schema parsing — surfaces as a 500 whose detail is
"OpenAI analysis failed: " followed by some exception text. -/
theorem analyze_error_shape (key : Option String) (model : String → ModelReply)
    (jsonParse : List Char → Except String AnalyzeResponse) (req : AnalyzeRequest)
    (e : HTTPError) (hkey : apiKeyTruthy key = true)
    (herr : (analyze_evidence_gap key model jsonParse req).1 = Except.error e) :
    ∃ m, e = ⟨500, "OpenAI analysis failed: " ++ m⟩ := by
  rcases hm : model (composePrompt req.question req.results) with m | content
  · have h1 : (analyze_evidence_gap key model jsonParse req).1
        = Except.error ⟨500, "OpenAI analysis failed: " ++ m⟩ := by
      unfold analyze_evidence_gap
      rw [if_pos hkey, hm]
    rw [h1] at herr
    injection herr with h
    exact ⟨m, h.symm⟩
  · have h1 : (analyze_evidence_gap key model jsonParse req).1
        = parseAnalysisStage jsonParse content := by
      unfold analyze_evidence_gap
      rw [if_pos hkey, hm]
    rw [h1] at herr
    unfold parseAnalysisStage at herr
    rcases hs : reSearchBrace content with _ | span
    · simp only [hs] at herr
      injection herr with h
      exact ⟨"500: OpenAI response did not contain valid JSON.", h.symm⟩
    · simp only [hs] at herr
      rcases hp : jsonParse span with mm | r
      · simp only [hp] at herr
        injection herr with h
        exact ⟨mm, h.symm⟩
      · simp only [hp] at herr
        cases herr

/-! ### Claim theorems -/

/-- C1: for every raw model reply, the response parser of
`analyze_evidence_gap` extracts the single greedy span from the first opening
brace to the last closing brace (`reSearchBrace` coincides with the spec's
`specBraceSpan` description), parses that span via the JSON/schema
collaborator, succeeds exactly when such a span exists and the span parses
into the required schema, and otherwise fails with the malformed-response
error (both when no brace-delimited span exists and when the span does not
parse). -/
theorem parse_analysis_greedy_span (jsonParse : List Char → Except String AnalyzeResponse)
    (s : List Char) :
    reSearchBrace s = specBraceSpan s
  ∧ (∀ r, parseAnalysisStage jsonParse s = .ok r ↔
      ∃ span, specBraceSpan s = some span ∧ jsonParse span = .ok r)
  ∧ (specBraceSpan s = none →
      parseAnalysisStage jsonParse s =
        .error ⟨500, "OpenAI analysis failed: 500: OpenAI response did not contain valid JSON."⟩)
  ∧ (∀ span m, specBraceSpan s = some span → jsonParse span = .error m →
      parseAnalysisStage jsonParse s = .error ⟨500, "OpenAI analysis failed: " ++ m⟩) := by
  have hre := reSearchBrace_eq_spec s
  rcases hs : specBraceSpan s with _ | span
  · have hstage : parseAnalysisStage jsonParse s =
        .error ⟨500, "OpenAI analysis failed: 500: OpenAI response did not contain valid JSON."⟩ := by
      unfold parseAnalysisStage
      rw [hre, hs]
    refine ⟨hre.trans hs, ?_, fun _ => hstage, ?_⟩
    · intro r
      rw [hstage]
      constructor
      · intro h; cases h
      · rintro ⟨sp, hsp, _⟩
        cases hsp
    · intro sp m hsp _
      cases hsp
  · rcases hp : jsonParse span with m | r0
    · have hstage : parseAnalysisStage jsonParse s =
          .error ⟨500, "OpenAI analysis failed: " ++ m⟩ := by
        unfold parseAnalysisStage
        rw [hre]
        simp only [hs, hp]
      refine ⟨hre.trans hs, ?_, ?_, ?_⟩
      · intro r
        rw [hstage]
        constructor
        · intro h; cases h
        · rintro ⟨sp, hsp, hok⟩
          injection hsp with hsp
          subst hsp
          rw [hp] at hok
          cases hok
      · intro hnone
        cases hnone
      · intro sp m' hsp herr
        injection hsp with hsp
        subst hsp
        rw [hp] at herr
        injection herr with herr
        rw [hstage, herr]
    · have hstage : parseAnalysisStage jsonParse s = .ok r0 := by
        unfold parseAnalysisStage
        rw [hre]
        simp only [hs, hp]
      refine ⟨hre.trans hs, ?_, ?_, ?_⟩
      · intro r
        rw [hstage]
        constructor
        · intro h
          injection h with h
          subst h
          exact ⟨span, rfl, hp⟩
        · rintro ⟨sp, hsp, hok⟩
          injection hsp with hsp
          subst hsp
          rw [hp] at hok
          injection hok with hok
          rw [hok]
      · intro hnone
        cases hnone
      · intro sp m' hsp herr
        injection hsp with hsp
        subst hsp
        rw [hp] at herr
        cases herr

/-- Witness for C1: on a reply with no brace-delimited span the parser fails
with the malformed-response error. -/
theorem parse_analysis_greedy_span_witness :
    parseAnalysisStage (fun _ => Except.error "err") ("no braces at all".toList)
      = Except.error ⟨500, "OpenAI analysis failed: 500: OpenAI response did not contain valid JSON."⟩ :=
  (parse_analysis_greedy_span (fun _ => Except.error "err") ("no braces at all".toList)).2.2.1
    (by decide)

/-- C2: for every parsed markup (entry list), abstract-fetch collaborator and
cap, the extraction step returns at most `cap` records, and the returned
records are a prefix, in document order, of the full in-document-order
extraction (no reordering, no sampling). -/
theorem extract_cap_is_truncation (fetch : String → Option AbstractPage)
    (entries : List DocsumEntry) (cap : Nat) :
    (extractRecords fetch entries cap).length ≤ cap
  ∧ ∃ rest, entries.map (extractRecord fetch) = extractRecords fetch entries cap ++ rest := by
  constructor
  · simp only [extractRecords, List.length_map, List.length_take]
    omega
  · refine ⟨(entries.drop cap).map (extractRecord fetch), ?_⟩
    unfold extractRecords
    rw [← List.map_append, List.take_append_drop]

/-- C3 counterexample: the claim is false for the main pipeline
(src/main.py): with an empty record sequence `analyze_evidence_gap` performs
no input check — the external model call IS attempted (second component
`true`), and the surfaced outcome is the wrapped upstream failure, not an
`InvalidInput` error. -/
theorem analyze_empty_attempts_call :
    analyze_evidence_gap (some "key") (fun _ => ModelReply.failure "boom")
      (fun _ => Except.error "e") ⟨"q", []⟩
      = (Except.error ⟨500, "OpenAI analysis failed: boom"⟩, true) := rfl

/-- C3 amended: in the eutils pipeline (src/api/index.py) `analyze_papers`
with an empty paper list fails before any external model call (the 400 "No
papers provided" is re-wrapped by the broad handler into a 500 whose detail
is "400: No papers provided"); the main pipeline (src/main.py) performs no
empty-records check and always attempts the external call when the API key
is set. -/
theorem analyze_empty_records_amended :
    (∀ model, analyze_papers model []
        = (Except.error ⟨500, "400: No papers provided"⟩, false))
  ∧ (∀ (key : Option String) model jsonParse q, apiKeyTruthy key = true →
      (analyze_evidence_gap key model jsonParse ⟨q, []⟩).2 = true) := by
  constructor
  · intro model; rfl
  · intro key model jsonParse q hkey
    simp only [analyze_evidence_gap, hkey, if_true]
    split <;> rfl

/-- Witness for C3's amended statement at a concrete key and model. -/
theorem analyze_empty_records_amended_witness :
    (analyze_evidence_gap (some "k") (fun _ => ModelReply.failure "x")
      (fun _ => Except.error "e") ⟨"q", []⟩).2 = true :=
  analyze_empty_records_amended.2 (some "k") (fun _ => ModelReply.failure "x")
    (fun _ => Except.error "e") "q" rfl

/-- C4: the per-record abstract fetch is best-effort.  Whether the overall
scrape succeeds is independent of the abstract-fetch collaborator; every
field other than the abstract is independent of it (so all records continue
to be processed identically); and a transport failure / non-2xx (modelled as
`fetch u = none`) or a missing abstract element both leave the record's
abstract absent rather than failing the scrape. -/
theorem abstract_fetch_best_effort (fetch fetch' : String → Option AbstractPage)
    (entries : List DocsumEntry) (q : String) :
    okB (scrape_pubmed (fun _ => SearchFetch.page entries) fetch q)
      = okB (scrape_pubmed (fun _ => SearchFetch.page entries) fetch' q)
  ∧ (extractRecords fetch entries 8).map eraseAbstract
      = (extractRecords fetch' entries 8).map eraseAbstract
  ∧ (∀ e u, (extractRecord fetch e).url = some u → fetch u = none →
      (extractRecord fetch e).abstract = none)
  ∧ (∀ e u page, (extractRecord fetch e).url = some u → fetch u = some page →
      page.abstractText = none → (extractRecord fetch e).abstract = none) := by
  refine ⟨?_, ?_, ?_, ?_⟩
  · rcases entries with _ | ⟨e, es⟩ <;> rfl
  · have hpt : ∀ e, eraseAbstract (extractRecord fetch e)
        = eraseAbstract (extractRecord fetch' e) := fun e => rfl
    unfold extractRecords
    rw [List.map_map, List.map_map]
    exact congrArg (fun g => List.map g (entries.take 8)) (funext hpt)
  · intro e u hu hf
    rcases e with ⟨ta, au, ci⟩
    rcases ta with _ | a
    · exact absurd hu (by simp [extractRecord])
    · have hu' : pubmedBase ++ a.href = u := by
        simpa [extractRecord] using hu
      subst hu'
      simp [extractRecord, hf]
  · intro e u page hu hf habs
    rcases e with ⟨ta, au, ci⟩
    rcases ta with _ | a
    · exact absurd hu (by simp [extractRecord])
    · have hu' : pubmedBase ++ a.href = u := by
        simpa [extractRecord] using hu
      subst hu'
      simp [extractRecord, hf, habs]

/-- Witness for C4: a concrete entry whose abstract fetch fails carries an
absent abstract. -/
theorem abstract_fetch_best_effort_witness :
    (extractRecord (fun _ => none) sampleEntry).abstract = none :=
  (abstract_fetch_best_effort (fun _ => none) (fun _ => some ⟨none⟩) [] "q").2.2.1
    sampleEntry "https://pubmed.ncbi.nlm.nih.gov/12345/" rfl rfl

/-- C5 counterexample: the claim is false for the main pipeline: on a search
page with zero matching result entries, `scrape_pubmed` does not return an
empty sequence — it rejects the empty extraction with
`HTTPException(404, "No results found.")` (src/main.py lines 138-139). -/
theorem scrape_empty_results_404 :
    scrape_pubmed (fun _ => SearchFetch.page []) (fun _ => none) "test query"
      = Except.error ⟨404, "No results found."⟩ := rfl

/-- C5 amended: the extraction step itself returns an empty sequence without
error for zero matching nodes, and the eutils pipeline (src/api/index.py)
returns an empty paper list as a valid non-error outcome when the upstream
search yields no ids; the main pipeline's endpoint, however, converts the
empty extraction into a 404 "No results found." error. -/
theorem empty_results_behavior_amended :
    (∀ fetch, extractRecords fetch [] 8 = [])
  ∧ (∀ search fetch q, search q = SearchFetch.page [] →
      scrape_pubmed search fetch q = Except.error ⟨404, "No results found."⟩)
  ∧ (∀ esearch efetch q mx, esearch q mx = ESearch.result [] →
      scrape_papers esearch efetch q mx = Except.ok []) := by
  refine ⟨fun _ => rfl, ?_, ?_⟩
  · intro search fetch q h
    unfold scrape_pubmed
    rw [h]
    rfl
  · intro esearch efetch q mx h
    unfold scrape_papers
    rw [h]

/-- Witness for C5's amended statement at a concrete empty esearch result. -/
theorem empty_results_behavior_amended_witness :
    scrape_papers (fun _ _ => ESearch.result []) (fun _ => []) "q" 5 = Except.ok [] :=
  empty_results_behavior_amended.2.2 (fun _ _ => ESearch.result []) (fun _ => []) "q" 5 rfl

/-- C6: the record id (`pmid`) is absent exactly when the detail link (`url`)
is absent, and when the detail link is present the id is precisely the
second-to-last slash-delimited segment of the link (`url.split("/")[-2]`). -/
theorem record_id_from_detail_link (fetch : String → Option AbstractPage) (e : DocsumEntry) :
    ((extractRecord fetch e).pmid.isSome ↔ (extractRecord fetch e).url.isSome)
  ∧ (∀ u, (extractRecord fetch e).url = some u →
      (extractRecord fetch e).pmid
        = (pySplitSlash u).get? ((pySplitSlash u).length - 2)) := by
  rcases e with ⟨ta, au, ci⟩
  rcases ta with _ | a
  · constructor
    · simp [extractRecord]
    · intro u hu
      exact absurd hu (by simp [extractRecord])
  · have h2 : 2 ≤ (pySplitSlash (pubmedBase ++ a.href)).length := two_le_pySplitSlash a.href
    have hlt : (pySplitSlash (pubmedBase ++ a.href)).length - 2
        < (pySplitSlash (pubmedBase ++ a.href)).length := by omega
    have hid := pmidFromUrl_of_base a.href
    have hpmid : (extractRecord fetch ⟨some a, au, ci⟩).pmid
        = pmidFromUrl (pubmedBase ++ a.href) := rfl
    have hurl : (extractRecord fetch ⟨some a, au, ci⟩).url
        = some (pubmedBase ++ a.href) := rfl
    constructor
    · rw [hpmid, hurl, hid, List.get?_eq_get hlt]
      simp
    · intro u hu
      rw [hurl] at hu
      injection hu with hu
      subst hu
      rw [hpmid]
      exact hid

/-- Witness for C6: the sample entry's detail link
`https://pubmed.ncbi.nlm.nih.gov/12345/` yields its second-to-last segment
`12345` as the record id. -/
theorem record_id_from_detail_link_witness :
    ((extractRecord (fun _ => none) sampleEntry).pmid
       = (pySplitSlash "https://pubmed.ncbi.nlm.nih.gov/12345/").get?
           ((pySplitSlash "https://pubmed.ncbi.nlm.nih.gov/12345/").length - 2))
  ∧ (extractRecord (fun _ => none) sampleEntry).pmid = some "12345" :=
  ⟨(record_id_from_detail_link (fun _ => none) sampleEntry).2
      "https://pubmed.ncbi.nlm.nih.gov/12345/" rfl,
   by decide⟩

/-- C7: every record produced by either scrape pipeline carries all of its
fields: the dict literal appended by src/main.py always has the six keys
(title, abstract, authors, publication_date, pmid, url), each mapped to an
explicit optional value (absent is `none`, never a missing key), and the
eutils pipeline's paper dict always has its three keys. -/
theorem record_fields_always_present :
    (∀ fetch e, (recordDict (extractRecord fetch e)).map Prod.fst
        = ["title", "abstract", "authors", "publication_date", "pmid", "url"])
  ∧ (∀ fetch e, (recordDict (extractRecord fetch e)).lookup "title"
        = some (extractRecord fetch e).title)
  ∧ (∀ fetch e, (recordDict (extractRecord fetch e)).lookup "abstract"
        = some (extractRecord fetch e).abstract)
  ∧ (∀ fetch e, (recordDict (extractRecord fetch e)).lookup "authors"
        = some (extractRecord fetch e).authors)
  ∧ (∀ fetch e, (recordDict (extractRecord fetch e)).lookup "publication_date"
        = some (extractRecord fetch e).publication_date)
  ∧ (∀ fetch e, (recordDict (extractRecord fetch e)).lookup "pmid"
        = some (extractRecord fetch e).pmid)
  ∧ (∀ fetch e, (recordDict (extractRecord fetch e)).lookup "url"
        = some (extractRecord fetch e).url)
  ∧ (∀ a : EArticle, (ePaperDict (extractEPaper a)).map Prod.fst
        = ["title", "abstract", "authors"]) :=
  ⟨fun _ _ => rfl, fun _ _ => rfl, fun _ _ => rfl, fun _ _ => rfl, fun _ _ => rfl,
   fun _ _ => rfl, fun _ _ => rfl, fun _ => rfl⟩

/-- C8: with the model-API credential absent (unset, or set to the falsy
empty string), `analyze_evidence_gap` fails fast with the configuration
error before any external model call (second component `false`), and that
error's detail is distinguishable from every error produced once the key is
set (all of which carry the "OpenAI analysis failed: " wrapper). -/
theorem missing_key_config_error :
    (∀ model jsonParse req, analyze_evidence_gap none model jsonParse req
        = (Except.error ⟨500, "OpenAI API key not set."⟩, false))
  ∧ (∀ model jsonParse req, analyze_evidence_gap (some "") model jsonParse req
        = (Except.error ⟨500, "OpenAI API key not set."⟩, false))
  ∧ (∀ (key : Option String) model jsonParse req e, apiKeyTruthy key = true →
      (analyze_evidence_gap key model jsonParse req).1 = Except.error e →
      e.detail ≠ "OpenAI API key not set.") := by
  refine ⟨fun _ _ _ => rfl, fun _ _ _ => rfl, ?_⟩
  intro key model jsonParse req e hkey herr
  rcases analyze_error_shape key model jsonParse req e hkey herr with ⟨m, rfl⟩
  exact wrapped_ne_config m

/-- Witness for C8: with the key set, a concrete upstream failure's surfaced
detail differs from the configuration-error detail. -/
theorem missing_key_config_error_witness :
    (HTTPError.mk 500 "OpenAI analysis failed: boom").detail ≠ "OpenAI API key not set." :=
  missing_key_config_error.2.2 (some "k") (fun _ => ModelReply.failure "boom")
    (fun _ => Except.error "e") ⟨"q", []⟩ ⟨500, "OpenAI analysis failed: boom"⟩ rfl rfl

/-- C9 counterexample: error classes are NOT distinguishable by a code/kind.
An UpstreamError run (the OpenAI call raises with a particular text) and a
MalformedResponse run (the call succeeds but the reply has no brace span)
produce byte-identical surfaced outcomes — the same status 500 and the same
detail string — so no consumer can distinguish the two classes. -/
theorem error_classes_collide :
    analyze_evidence_gap (some "key")
        (fun _ => ModelReply.failure "500: OpenAI response did not contain valid JSON.")
        (fun _ => Except.error "e") ⟨"q", []⟩
      = analyze_evidence_gap (some "key")
          (fun _ => ModelReply.reply "The study has limitations.".toList)
          (fun _ => Except.error "e") ⟨"q", []⟩
  ∧ analyze_evidence_gap (some "key")
        (fun _ => ModelReply.failure "500: OpenAI response did not contain valid JSON.")
        (fun _ => Except.error "e") ⟨"q", []⟩
      = (Except.error
          ⟨500, "OpenAI analysis failed: 500: OpenAI response did not contain valid JSON."⟩,
         true) :=
  ⟨rfl, rfl⟩

/-- C9 amended: every request-level failure of `analyze_evidence_gap`
surfaces with HTTP status 500 and a human-readable detail; the
malformed-response case carries the fixed detail
"OpenAI analysis failed: 500: OpenAI response did not contain valid JSON."
while an upstream model failure carries "OpenAI analysis failed: " followed
by the collaborator's exception text — the classes are separated only by
that message text (an upstream error whose text coincides is
indistinguishable), never by a status code or structured kind. -/
theorem analyze_error_surface_amended (key : Option String) (model : String → ModelReply)
    (jsonParse : List Char → Except String AnalyzeResponse) (req : AnalyzeRequest)
    (hkey : apiKeyTruthy key = true) :
    (∀ m, model (composePrompt req.question req.results) = ModelReply.failure m →
      (analyze_evidence_gap key model jsonParse req).1
        = Except.error ⟨500, "OpenAI analysis failed: " ++ m⟩)
  ∧ (∀ content, model (composePrompt req.question req.results) = ModelReply.reply content →
      reSearchBrace content = none →
      (analyze_evidence_gap key model jsonParse req).1
        = Except.error
            ⟨500, "OpenAI analysis failed: 500: OpenAI response did not contain valid JSON."⟩)
  ∧ (∀ (key' : Option String) model' jsonParse' req' e,
      (analyze_evidence_gap key' model' jsonParse' req').1 = Except.error e →
      e.status = 500) := by
  refine ⟨?_, ?_, ?_⟩
  · intro m hm
    unfold analyze_evidence_gap
    rw [if_pos hkey, hm]
  · intro content hm hs
    have h1 : (analyze_evidence_gap key model jsonParse req).1
        = parseAnalysisStage jsonParse content := by
      unfold analyze_evidence_gap
      rw [if_pos hkey, hm]
    rw [h1]
    unfold parseAnalysisStage
    rw [hs]
  · intro key' model' jsonParse' req' e herr
    by_cases hk : apiKeyTruthy key' = true
    · rcases analyze_error_shape key' model' jsonParse' req' e hk herr with ⟨m, rfl⟩
      rfl
    · have hcfg : (analyze_evidence_gap key' model' jsonParse' req').1
          = Except.error ⟨500, "OpenAI API key not set."⟩ := by
        unfold analyze_evidence_gap
        rw [if_neg hk]
      rw [hcfg] at herr
      injection herr with h
      rw [← h]

/-- Witness for C9's amended statement: a concrete upstream failure surfaces
with status 500 and the wrapped detail. -/
theorem analyze_error_surface_amended_witness :
    (analyze_evidence_gap (some "k") (fun _ => ModelReply.failure "boom")
        (fun _ => Except.error "e") ⟨"q", []⟩).1
      = Except.error ⟨500, "OpenAI analysis failed: " ++ "boom"⟩ :=
  (analyze_error_surface_amended (some "k") (fun _ => ModelReply.failure "boom")
      (fun _ => Except.error "e") ⟨"q", []⟩ rfl).1 "boom" rfl

/-- C10: in the eutils pipeline an author is appended to a paper's authors
list only when both a forename element and a last-name element are present
(found and truthy) for that author, every appended entry has the shape
"First Last" built from those two elements, and an author missing either
element contributes nothing. -/
theorem authors_require_both_names (art : EArticle) :
    (∀ s, s ∈ (extractEPaper art).authors →
      ∃ al a, art.authorList = some al ∧ a ∈ al.authors ∧
        ∃ ln fn, a.lastName = some ln ∧ a.foreName = some fn ∧
          ln.truthy = true ∧ fn.truthy = true ∧ s = fn.text ++ " " ++ ln.text)
  ∧ (∀ a : EAuthor, a.lastName = none ∨ a.foreName = none → authorEntry a = none) := by
  constructor
  · intro s hs
    rcases art with ⟨ti, ab, alO⟩
    rcases alO with _ | al
    · simp [extractEPaper] at hs
    · simp only [extractEPaper] at hs
      by_cases ht : al.truthy
      · rw [if_pos ht] at hs
        rw [List.mem_filterMap] at hs
        rcases hs with ⟨a, ha, he⟩
        rcases a with ⟨_ | ln, _ | fn⟩
        · simp [authorEntry] at he
        · simp [authorEntry] at he
        · simp [authorEntry] at he
        · simp only [authorEntry] at he
          by_cases htr : ln.truthy && fn.truthy
          · rw [if_pos htr] at he
            injection he with he
            rcases Bool.and_eq_true_iff.mp htr with ⟨h1, h2⟩
            exact ⟨al, ⟨some ln, some fn⟩, rfl, ha, ln, fn, rfl, rfl, h1, h2, he.symm⟩
          · rw [if_neg htr] at he
            cases he
      · rw [if_neg ht] at hs
        simp at hs
  · intro a h
    rcases a with ⟨lnO, fnO⟩
    rcases h with h | h
    · simp only at h
      subst h
      rcases fnO with _ | fn <;> rfl
    · simp only at h
      subst h
      rcases lnO with _ | ln <;> rfl

/-- Witness for C10: an author with a missing last-name element contributes
no entry. -/
theorem authors_require_both_names_witness :
    authorEntry ⟨none, some ⟨true, "John"⟩⟩ = none :=
  (authors_require_both_names sampleEArticle).2 ⟨none, some ⟨true, "John"⟩⟩ (Or.inl rfl)
